import Mathlib

/-!
Shallow embedding of `gmail_app_password_tester.py`.

The network is modelled as an environment `NetEnv`: for each
(identity, secret, timeout) triple it fixes the outcome of every network
sub-attempt the program can make (the IMAP session, the implicit-TLS SMTP
session, and the STARTTLS SMTP session), as an `Except String Unit` whose
`.error` payload is the stringified Python exception that the corresponding
`except Exception as e:` handler would see.  Durations of the two probes are
given by the environment as rationals (wall-clock seconds); Python floats are
modelled by `ℚ`.
-/

namespace GmailTester

/-- Network environment: the outcome of each network sub-attempt, as a
function of (email, app_password, timeout).  `.error msg` means the Python
code raises an exception stringifying to `msg`; `.ok ()` means the attempt
(connect + greeting + login + liveness command) succeeds.  The `...QuitFails`
fields record whether the `server.quit()` call after a successful SMTP login
raises (the source swallows that exception with `try/except: pass`). -/
structure NetEnv where
  imapSession : String → String → Nat → Except String Unit
  sslSession : String → String → Nat → Except String Unit
  sslQuitFails : String → String → Nat → Bool
  startTlsSession : String → String → Nat → Except String Unit
  startTlsQuitFails : String → String → Nat → Bool
  imapDur : String → String → Nat → ℚ
  smtpDur : String → String → Nat → ℚ

/-- `test_imap` (source lines 29–41): the whole body is wrapped in
`try: ... return True, "" except Exception as e: return False, str(e)`. -/
def test_imap (env : NetEnv) (email app_password : String) (timeout : Nat) :
    Bool × String :=
  match env.imapSession email app_password timeout with
  | .ok _ => (true, "")
  | .error e => (false, e)

/-- `test_smtp` (source lines 43–70): try implicit TLS on port 465; on any
exception fall back to STARTTLS on port 587; if both raise, return
`False, f"SSL:{e_ssl}; STARTTLS:{e_tls}"`.  A failing `server.quit()` after a
successful login is swallowed and does not change the returned value. -/
def test_smtp (env : NetEnv) (email app_password : String) (timeout : Nat) :
    Bool × String :=
  match env.sslSession email app_password timeout with
  | .ok _ => (true, "")
  | .error e_ssl =>
    match env.startTlsSession email app_password timeout with
    | .ok _ => (true, "")
    | .error e_tls => (false, "SSL:" ++ e_ssl ++ "; STARTTLS:" ++ e_tls)

/-- One row of the per-credential result dict built by `test_one`
(source lines 78–83). -/
structure ResultRow where
  email : String
  imap_ok : Bool
  imap_error : String
  smtp_ok : Bool
  smtp_error : String
  elapsed_s : ℚ
deriving Repr, DecidableEq

/-- `round(x, 2)`: rounding to two decimal places.  (Python rounds floats
half-to-even; the tie-breaking rule is immaterial to every claim, so the
standard `round` on `ℚ` is used.) -/
def round2 (x : ℚ) : ℚ := (round (x * 100) : ℤ) / 100

/-- `test_one` (source lines 72–83): run `test_imap`, sleep
`inter_proto_pause` seconds (default 0.5), run `test_smtp`, and record the
elapsed wall time from before the IMAP probe to after the SMTP probe,
rounded to two decimals.  Wall time is modelled as the sum of the two
probe durations and the pause. -/
def test_one (env : NetEnv) (email app_password : String) (timeout : Nat)
    (inter_proto_pause : ℚ := 1 / 2) : ResultRow :=
  let i := test_imap env email app_password timeout
  let s := test_smtp env email app_password timeout
  let dt := round2 (env.imapDur email app_password timeout + inter_proto_pause
    + env.smtpDur email app_password timeout)
  { email := email
    imap_ok := i.1, imap_error := i.2
    smtp_ok := s.1, smtp_error := s.2
    elapsed_s := dt }

/-- A raw CSV data row as `csv.DictReader` presents it to `read_accounts`:
for each of the two consulted columns, `none` models a missing key or a
`None` cell value, `some s` a string cell. -/
structure RawRow where
  email : Option String
  app_password : Option String
deriving Repr, DecidableEq

/-- A skip entry as built by `read_accounts` (source lines 94–97). -/
structure SkipRec where
  email : String
  reason : String
deriving Repr, DecidableEq

/-- Outcome of classifying one raw row. -/
inductive Classified where
  | valid (email app_password : String)
  | skip (rec : SkipRec)
deriving Repr, DecidableEq

/-- Python `str.strip()` with no argument: remove leading and trailing
whitespace characters. -/
def strip (s : String) : String :=
  ⟨((s.data.dropWhile Char.isWhitespace).reverse.dropWhile
      Char.isWhitespace).reverse⟩

/-- The per-row body of the loop in `read_accounts` (source lines 89–99):
`email = (r.get("email") or "").strip()`, same for `app_password`; a row with
empty email or empty password becomes a skip entry, the email field of which
is `f"(row {i})"` when the email is empty, and otherwise the email; the
reason is `"missing email"` when the email is empty, else
`"missing app_password"`.  `i` is the `enumerate(..., start=2)` index: the
row's 1-based position in the file counting the header as row 1. -/
def classifyRow (i : Nat) (r : RawRow) : Classified :=
  let email := strip (r.email.getD "")
  let pw := strip (r.app_password.getD "")
  if email = "" ∨ pw = "" then
    .skip { email := if email = "" then "(row " ++ toString i ++ ")" else email
            reason := if email = "" then "missing email" else "missing app_password" }
  else
    .valid email pw

/-- The loop of `read_accounts` from index `i` on: partitions rows into the
`valid` and `skipped` lists, both in input order. -/
def read_accountsAux (i : Nat) : List RawRow → List (String × String) × List SkipRec
  | [] => ([], [])
  | r :: rs =>
    let rest := read_accountsAux (i + 1) rs
    match classifyRow i r with
    | .valid e p => ((e, p) :: rest.1, rest.2)
    | .skip s => (rest.1, s :: rest.2)

/-- `read_accounts` (source lines 85–100), starting the enumeration at 2
(header is row 1). -/
def read_accounts (rows : List RawRow) : List (String × String) × List SkipRec :=
  read_accountsAux 2 rows

/-- Rendering of the numeric `elapsed_s` cell by `csv.writer` (stringifies
the value). -/
def ratStr (q : ℚ) : String := toString q

/-- The header row written by `write_report` (source line 105). -/
def reportHeader : List String :=
  ["email", "imap_ok", "imap_error", "smtp_ok", "smtp_error", "elapsed_s"]

/-- One tested-result output row (source lines 107–115). -/
def resultToRow (r : ResultRow) : List String :=
  [r.email,
   if r.imap_ok then "OK" else "FAIL",
   r.imap_error,
   if r.smtp_ok then "OK" else "FAIL",
   r.smtp_error,
   ratStr r.elapsed_s]

/-- One skip output row (source lines 117–125). -/
def skipToRow (s : SkipRec) : List String :=
  [s.email, "SKIP", s.reason, "SKIP", s.reason, ""]

/-- `write_report` (source lines 102–125): header row, then the tested
results in the order they were handed over, then the skip rows in input
order. -/
def write_report (results : List ResultRow) (skipped_rows : List SkipRec) :
    List (List String) :=
  reportHeader :: (results.map resultToRow ++ skipped_rows.map skipToRow)

/-- The sequential scheduler branch of `main` (source lines 159–163): process
each valid pair in input order with `test_one`, collecting the results in
order.  (The cooldown sleep in `post_result` affects timing only, not the
collected results.) -/
def run_sequential (env : NetEnv) (pairs : List (String × String))
    (timeout : Nat) (pause : ℚ := 1 / 2) : List ResultRow :=
  pairs.map fun ep => test_one env ep.1 ep.2 timeout pause

/-- The concurrent scheduler branch of `main` (source lines 164–170): one
future per valid pair, results collected in completion order.  The completion
order is modelled as a list `order` of indices into `pairs`; `as_completed`
yields every submitted future exactly once, which corresponds to `order`
being a permutation of `List.range pairs.length`. -/
def run_concurrent (env : NetEnv) (pairs : List (String × String))
    (order : List Nat) (timeout : Nat) (pause : ℚ := 1 / 2) : List ResultRow :=
  order.filterMap fun k =>
    (pairs[k]?).map fun ep => test_one env ep.1 ep.2 timeout pause

/-- Demo environment: every network attempt fails. -/
def bothFailEnv : NetEnv where
  imapSession := fun _ _ _ => .error "IMAP login rejected"
  sslSession := fun _ _ _ => .error "connection refused"
  sslQuitFails := fun _ _ _ => false
  startTlsSession := fun _ _ _ => .error "timed out"
  startTlsQuitFails := fun _ _ _ => false
  imapDur := fun _ _ _ => 1
  smtpDur := fun _ _ _ => 2

/-- Demo environment: every attempt raises an exception whose Python
stringification `str(e)` is the empty string (possible for a bare
`Exception()`). -/
def emptyCauseEnv : NetEnv where
  imapSession := fun _ _ _ => .error ""
  sslSession := fun _ _ _ => .error ""
  sslQuitFails := fun _ _ _ => false
  startTlsSession := fun _ _ _ => .error ""
  startTlsQuitFails := fun _ _ _ => false
  imapDur := fun _ _ _ => 1
  smtpDur := fun _ _ _ => 1

/-- Demo environment: the IMAP probe fails, both SMTP attempts succeed. -/
def imapFailEnv : NetEnv where
  imapSession := fun _ _ _ => .error "invalid credentials"
  sslSession := fun _ _ _ => .ok ()
  sslQuitFails := fun _ _ _ => false
  startTlsSession := fun _ _ _ => .ok ()
  startTlsQuitFails := fun _ _ _ => false
  imapDur := fun _ _ _ => 1
  smtpDur := fun _ _ _ => 2

/-- Demo environment: every attempt succeeds. -/
def allOkEnv : NetEnv where
  imapSession := fun _ _ _ => .ok ()
  sslSession := fun _ _ _ => .ok ()
  sslQuitFails := fun _ _ _ => false
  startTlsSession := fun _ _ _ => .ok ()
  startTlsQuitFails := fun _ _ _ => false
  imapDur := fun _ _ _ => 1
  smtpDur := fun _ _ _ => 2

/-- The scenario input from the specification:
`email,app_password / a@x.com,secret1 / ,secret2 / b@x.com,`. -/
def demoRows : List RawRow :=
  [⟨some "a@x.com", some "secret1"⟩, ⟨some "", some "secret2"⟩,
   ⟨some "b@x.com", some ""⟩]

/-! ### Helper lemmas -/

theorem strip_empty : strip "" = "" := rfl

theorem str_append_assoc (a b c : String) : a ++ b ++ c = a ++ (b ++ c) := by
  apply String.ext
  simp [String.data_append, List.append_assoc]

/-- The combined Probe B failure detail splits as
first-cause ++ "; " ++ second-cause. -/
theorem combineDetail (m1 m2 : String) :
    "SSL:" ++ m1 ++ "; STARTTLS:" ++ m2
      = ("SSL:" ++ m1) ++ "; " ++ ("STARTTLS:" ++ m2) := by
  have h : ("; STARTTLS:" : String) = "; " ++ "STARTTLS:" := rfl
  rw [h, ← str_append_assoc ("SSL:" ++ m1) "; " "STARTTLS:",
    str_append_assoc (("SSL:" ++ m1) ++ "; ") "STARTTLS:" m2]

/-- The combined Probe B failure detail is never the empty string. -/
theorem combined_detail_ne_empty (a b : String) :
    "SSL:" ++ a ++ "; STARTTLS:" ++ b ≠ "" := by
  intro h
  have hl := congrArg String.length h
  rw [String.length_append, String.length_append, String.length_append] at hl
  have h1 : ("SSL:" : String).length = 4 := rfl
  have h2 : ("; STARTTLS:" : String).length = 11 := rfl
  have h3 : ("" : String).length = 0 := rfl
  omega

/-- A row classified as a skip at its enumeration index contributes its skip
entry to the skipped list. -/
theorem skip_mem_read_accountsAux {s : SkipRec} :
    ∀ (rows : List RawRow) (i k : Nat) (r : RawRow),
      rows[k]? = some r → classifyRow (i + k) r = .skip s →
      s ∈ (read_accountsAux i rows).2 := by
  intro rows
  induction rows with
  | nil => intro i k r h; simp at h
  | cons r0 rs ih =>
    intro i k r h hc
    cases k with
    | zero =>
      simp only [List.getElem?_cons_zero, Option.some.injEq] at h
      subst h
      rw [Nat.add_zero] at hc
      simp only [read_accountsAux, hc]
      simp
    | succ j =>
      have h' : rs[j]? = some r := by simpa using h
      have hc' : classifyRow ((i + 1) + j) r = .skip s := by
        rw [show (i + 1) + j = i + (j + 1) by omega]; exact hc
      have hmem := ih (i + 1) j r h' hc'
      simp only [read_accountsAux]
      cases hcl : classifyRow i r0 <;> simp [hcl, hmem]

/-- Classification conserves rows: valid pairs plus skip entries account for
every data row exactly once. -/
theorem read_accountsAux_count :
    ∀ (rows : List RawRow) (i : Nat),
      (read_accountsAux i rows).1.length + (read_accountsAux i rows).2.length
        = rows.length := by
  intro rows
  induction rows with
  | nil => intro i; simp [read_accountsAux]
  | cons r rs ih =>
    intro i
    simp only [read_accountsAux]
    cases hcl : classifyRow i r <;>
      simp only [List.length_cons] <;> have := ih (i + 1) <;> omega

/-! ### Claim theorems -/

/-- C1: every input row is classified as exactly one of a valid credential
pair or a skip record; the row is a skip iff, after trimming, the email or
the app_password is empty; an empty email gives reason "missing email"
(even if the app_password is also empty), otherwise the reason is
"missing app_password"; and a skip with empty email carries the placeholder
"(row N)" where N is the row's 1-based file position counting the header as
row 1 (the k-th data row, 0-based, is file row k + 2). -/
theorem C1_classifier_partition :
    (∀ (i : Nat) (r : RawRow),
      ((∃ s, classifyRow i r = .skip s) ↔
        (strip (r.email.getD "") = "" ∨ strip (r.app_password.getD "") = ""))
      ∧ (strip (r.email.getD "") = "" →
          classifyRow i r =
            .skip ⟨"(row " ++ toString i ++ ")", "missing email"⟩)
      ∧ (strip (r.email.getD "") ≠ "" → strip (r.app_password.getD "") = "" →
          classifyRow i r = .skip ⟨strip (r.email.getD ""), "missing app_password"⟩)
      ∧ (strip (r.email.getD "") ≠ "" → strip (r.app_password.getD "") ≠ "" →
          classifyRow i r =
            .valid (strip (r.email.getD "")) (strip (r.app_password.getD ""))))
    ∧ (∀ (rows : List RawRow) (k : Nat) (r : RawRow),
        rows[k]? = some r → strip (r.email.getD "") = "" →
        SkipRec.mk ("(row " ++ toString (k + 2) ++ ")") "missing email"
          ∈ (read_accounts rows).2) := by
  constructor
  · intro i r
    by_cases he : strip (r.email.getD "") = "" <;>
      by_cases hp : strip (r.app_password.getD "") = "" <;>
        simp [classifyRow, he, hp]
  · intro rows k r h he
    have hc : classifyRow (2 + k) r =
        .skip ⟨"(row " ++ toString (k + 2) ++ ")", "missing email"⟩ := by
      rw [show 2 + k = k + 2 by omega]
      simp [classifyRow, he]
    exact skip_mem_read_accountsAux rows 2 k r h hc

/-- C1 witness: concrete rows exercising the placeholder, the
missing-app_password reason and the valid case. -/
theorem C1_classifier_partition_witness :
    classifyRow 3 ⟨some " ", some "secret2"⟩ =
      .skip ⟨"(row 3)", "missing email"⟩
    ∧ classifyRow 4 ⟨some "b@x.com", some ""⟩ =
      .skip ⟨"b@x.com", "missing app_password"⟩
    ∧ classifyRow 2 ⟨some "a@x.com", some "secret1"⟩ = .valid "a@x.com" "secret1"
    ∧ SkipRec.mk "(row 3)" "missing email"
        ∈ (read_accounts [⟨some "a@x.com", some "secret1"⟩,
            ⟨some "", some "secret2"⟩, ⟨some "b@x.com", some ""⟩]).2 := by
  refine ⟨?_, ?_, ?_, ?_⟩
  · exact (C1_classifier_partition.1 3 ⟨some " ", some "secret2"⟩).2.1 (by decide)
  · exact (C1_classifier_partition.1 4 ⟨some "b@x.com", some ""⟩).2.2.1
      (by decide) (by decide)
  · exact (C1_classifier_partition.1 2 ⟨some "a@x.com", some "secret1"⟩).2.2.2
      (by decide) (by decide)
  · exact C1_classifier_partition.2 _ 1 ⟨some "", some "secret2"⟩ (by decide) (by decide)

/-- C9: a missing email or app_password key (or a None cell), modelled as
`none`, is classified exactly like an empty-string cell: the row becomes a
skip record with the corresponding missing-field reason, and classification
is total (it always returns a value, never an error). -/
theorem C9_absent_column_like_empty :
    (∀ (i : Nat) (v : Option String),
      classifyRow i ⟨none, v⟩ = classifyRow i ⟨some "", v⟩
      ∧ classifyRow i ⟨none, v⟩ =
          .skip ⟨"(row " ++ toString i ++ ")", "missing email"⟩)
    ∧ (∀ (i : Nat) (u : Option String),
      classifyRow i ⟨u, none⟩ = classifyRow i ⟨u, some ""⟩
      ∧ (strip (u.getD "") ≠ "" →
          classifyRow i ⟨u, none⟩ =
            .skip ⟨strip (u.getD ""), "missing app_password"⟩)) := by
  constructor
  · intro i v
    constructor
    · rfl
    · simp [classifyRow, strip_empty]
  · intro i u
    constructor
    · rfl
    · intro hu
      simp [classifyRow, strip_empty, hu]

/-- C9 witness: a row with both columns absent skips with reason
"missing email"; a row with only the app_password column absent skips with
reason "missing app_password". -/
theorem C9_absent_column_like_empty_witness :
    classifyRow 2 ⟨none, none⟩ = .skip ⟨"(row 2)", "missing email"⟩
    ∧ classifyRow 5 ⟨some "c@x.com", none⟩ =
        .skip ⟨"c@x.com", "missing app_password"⟩ := by
  constructor
  · exact (C9_absent_column_like_empty.1 2 none).2
  · exact (C9_absent_column_like_empty.2 5 (some "c@x.com")).2 (by decide)

/-- C10: a row classified as valid yields exactly the whitespace-trimmed
email and app_password; those trimmed values are the ones `test_one` hands
to both probes, the email stored in the result record, and the email cell of
the report row. -/
theorem C10_trimmed_values_used (i : Nat) (r : RawRow) (e p : String)
    (h : classifyRow i r = .valid e p) :
    e = strip (r.email.getD "") ∧ p = strip (r.app_password.getD "")
    ∧ ∀ (env : NetEnv) (t : Nat) (pause : ℚ),
        (test_one env e p t pause).email = strip (r.email.getD "")
        ∧ (test_one env e p t pause).imap_ok =
            (test_imap env (strip (r.email.getD "")) (strip (r.app_password.getD "")) t).1
        ∧ (test_one env e p t pause).imap_error =
            (test_imap env (strip (r.email.getD "")) (strip (r.app_password.getD "")) t).2
        ∧ (test_one env e p t pause).smtp_ok =
            (test_smtp env (strip (r.email.getD "")) (strip (r.app_password.getD "")) t).1
        ∧ (test_one env e p t pause).smtp_error =
            (test_smtp env (strip (r.email.getD "")) (strip (r.app_password.getD "")) t).2
        ∧ (resultToRow (test_one env e p t pause))[0]? =
            some (strip (r.email.getD "")) := by
  have he : e = strip (r.email.getD "") ∧ p = strip (r.app_password.getD "") := by
    by_cases hc : strip (r.email.getD "") = "" ∨ strip (r.app_password.getD "") = ""
    · simp [classifyRow, hc] at h
    · simp [classifyRow, hc] at h
      exact ⟨h.1.symm, h.2.symm⟩
  obtain ⟨he1, he2⟩ := he
  subst he1; subst he2
  refine ⟨rfl, rfl, ?_⟩
  intro env t pause
  exact ⟨rfl, rfl, rfl, rfl, rfl, rfl⟩

/-- C10 witness: a row with padded cells is classified to the trimmed pair
and the trimmed email reaches the result record and the report row. -/
theorem C10_trimmed_values_used_witness :
    classifyRow 2 ⟨some "  a@x.com ", some " secret1 "⟩ = .valid "a@x.com" "secret1"
    ∧ "a@x.com" = strip ((some "  a@x.com " : Option String).getD "") := by
  constructor
  · decide
  · exact (C10_trimmed_values_used 2 ⟨some "  a@x.com ", some " secret1 "⟩
      "a@x.com" "secret1" (by decide)).1

/-- C2: Probe B returns ok = true iff the implicit-TLS attempt succeeds or,
after it fails, the STARTTLS fallback succeeds; ok = false exactly when both
sub-attempts fail, in which case the detail is
first-cause ++ "; " ++ second-cause with the two causes in order. -/
theorem C2_smtp_fallback (env : NetEnv) (e p : String) (t : Nat) :
    ((test_smtp env e p t).1 = true ↔
      ((∃ u, env.sslSession e p t = .ok u)
        ∨ ((∃ m, env.sslSession e p t = .error m)
            ∧ ∃ u, env.startTlsSession e p t = .ok u)))
    ∧ ((test_smtp env e p t).1 = false ↔
      ((∃ m, env.sslSession e p t = .error m)
        ∧ ∃ m, env.startTlsSession e p t = .error m))
    ∧ (∀ m1 m2, env.sslSession e p t = .error m1 →
        env.startTlsSession e p t = .error m2 →
        test_smtp env e p t
          = (false, ("SSL:" ++ m1) ++ "; " ++ ("STARTTLS:" ++ m2))) := by
  cases h1 : env.sslSession e p t with
  | ok u =>
    refine ⟨by simp [test_smtp, h1], by simp [test_smtp, h1], ?_⟩
    intro m1 m2 hm1 hm2
    cases hm1
  | error m =>
    cases h2 : env.startTlsSession e p t with
    | ok u =>
      refine ⟨by simp [test_smtp, h1, h2], by simp [test_smtp, h1, h2], ?_⟩
      intro m1 m2 hm1 hm2
      cases hm2
    | error m2 =>
      refine ⟨by simp [test_smtp, h1, h2], by simp [test_smtp, h1, h2], ?_⟩
      intro m1' m2' hm1 hm2
      injection hm1 with hh1
      injection hm2 with hh2
      subst hh1
      subst hh2
      simp only [test_smtp, h1, h2]
      rw [combineDetail]

/-- C2 witness: with both SMTP sub-attempts failing, the detail is the two
causes in order separated by "; ". -/
theorem C2_smtp_fallback_witness :
    test_smtp bothFailEnv "a@x.com" "pw" 20
      = (false, ("SSL:" ++ "connection refused") ++ "; "
          ++ ("STARTTLS:" ++ "timed out")) :=
  (C2_smtp_fallback bothFailEnv "a@x.com" "pw" 20).2.2
    "connection refused" "timed out" rfl rfl

/-- C4: both probes are total at their interface: for every environment and
input they return a value, which is either (true, "") or (false, detail)
with detail the stringified cause of the caught failure — no exception
escapes the probe. -/
theorem C4_probe_totality (env : NetEnv) (e p : String) (t : Nat) :
    (test_imap env e p t = (true, "")
      ∨ ∃ m, env.imapSession e p t = .error m ∧ test_imap env e p t = (false, m))
    ∧ (test_smtp env e p t = (true, "")
      ∨ ∃ m1 m2, env.sslSession e p t = .error m1
          ∧ env.startTlsSession e p t = .error m2
          ∧ test_smtp env e p t = (false, "SSL:" ++ m1 ++ "; STARTTLS:" ++ m2)) := by
  constructor
  · cases h : env.imapSession e p t with
    | ok u => left; simp [test_imap, h]
    | error m => right; exact ⟨m, rfl, by simp [test_imap, h]⟩
  · cases h1 : env.sslSession e p t with
    | ok u => left; simp [test_smtp, h1]
    | error m =>
      cases h2 : env.startTlsSession e p t with
      | ok u => left; simp [test_smtp, h1, h2]
      | error m2 => right; exact ⟨m, m2, rfl, rfl, by simp [test_smtp, h1, h2]⟩

/-- C6: the Verifier's SMTP outcome and elapsed time are independent of the
IMAP outcome (two environments agreeing on the SMTP attempts and on the
durations give identical smtp fields, so a Probe A failure never skips
Probe B), and the result record carries the email, the Probe A outcome, the
Probe B outcome, and the wall time from before Probe A to after Probe B —
IMAP duration, then the inter-probe pause, then SMTP duration — rounded to
two decimals. -/
theorem C6_verifier_independence (env1 env2 : NetEnv) (e p : String)
    (t : Nat) (pause : ℚ)
    (hssl : env1.sslSession = env2.sslSession)
    (hstart : env1.startTlsSession = env2.startTlsSession)
    (hidur : env1.imapDur = env2.imapDur)
    (hsdur : env1.smtpDur = env2.smtpDur) :
    ((test_one env1 e p t pause).smtp_ok = (test_one env2 e p t pause).smtp_ok
      ∧ (test_one env1 e p t pause).smtp_error
          = (test_one env2 e p t pause).smtp_error
      ∧ (test_one env1 e p t pause).elapsed_s
          = (test_one env2 e p t pause).elapsed_s)
    ∧ (test_one env1 e p t pause).email = e
    ∧ (test_one env1 e p t pause).imap_ok = (test_imap env1 e p t).1
    ∧ (test_one env1 e p t pause).imap_error = (test_imap env1 e p t).2
    ∧ (test_one env1 e p t pause).smtp_ok = (test_smtp env1 e p t).1
    ∧ (test_one env1 e p t pause).smtp_error = (test_smtp env1 e p t).2
    ∧ (test_one env1 e p t pause).elapsed_s
        = round2 (env1.imapDur e p t + pause + env1.smtpDur e p t) := by
  refine ⟨⟨?_, ?_, ?_⟩, rfl, rfl, rfl, rfl, rfl, rfl⟩
  · simp [test_one, test_smtp, hssl, hstart]
  · simp [test_one, test_smtp, hssl, hstart]
  · simp [test_one, hidur, hsdur]

/-- C6 witness: a failing Probe A leaves the Probe B outcome and the elapsed
time identical to those of an otherwise equal environment whose Probe A
succeeds. -/
theorem C6_verifier_independence_witness :
    (test_one imapFailEnv "a@x.com" "pw" 20 (1 / 2)).imap_ok = false
    ∧ (test_one imapFailEnv "a@x.com" "pw" 20 (1 / 2)).smtp_ok
        = (test_one allOkEnv "a@x.com" "pw" 20 (1 / 2)).smtp_ok
    ∧ (test_one imapFailEnv "a@x.com" "pw" 20 (1 / 2)).elapsed_s
        = round2 (1 + 1 / 2 + 2) := by
  refine ⟨rfl, ?_, ?_⟩
  · exact ((C6_verifier_independence imapFailEnv allOkEnv "a@x.com" "pw" 20
      (1 / 2) rfl rfl rfl rfl).1).1
  · exact (C6_verifier_independence imapFailEnv allOkEnv "a@x.com" "pw" 20
      (1 / 2) rfl rfl rfl rfl).2.2.2.2.2.2

/-- C8 counterexample: detail is not always non-empty when ok is false —
in an environment where the caught IMAP exception stringifies to the empty
string, Probe A returns ok = false with an empty detail. -/
theorem C8_counterexample :
    (test_imap emptyCauseEnv "a@x.com" "pw" 20).1 = false
    ∧ (test_imap emptyCauseEnv "a@x.com" "pw" 20).2 = "" :=
  ⟨rfl, rfl⟩

/-- C8 (amended): detail is empty whenever ok is true; whenever ok is false,
detail carries the stringified cause(s): for Probe A it equals the cause
(so is non-empty exactly when the cause string is), and for Probe B it
contains both causes and is always non-empty. -/
theorem C8_probe_detail_invariant (env : NetEnv) (e p : String) (t : Nat) :
    ((test_imap env e p t).1 = true → (test_imap env e p t).2 = "")
    ∧ ((test_imap env e p t).1 = false →
        env.imapSession e p t = .error (test_imap env e p t).2)
    ∧ ((test_smtp env e p t).1 = true → (test_smtp env e p t).2 = "")
    ∧ ((test_smtp env e p t).1 = false →
        (test_smtp env e p t).2 ≠ ""
        ∧ ∃ m1 m2, env.sslSession e p t = .error m1
            ∧ env.startTlsSession e p t = .error m2
            ∧ (test_smtp env e p t).2 = "SSL:" ++ m1 ++ "; STARTTLS:" ++ m2) := by
  refine ⟨?_, ?_, ?_, ?_⟩
  · cases h : env.imapSession e p t <;> simp [test_imap, h]
  · cases h : env.imapSession e p t <;> simp [test_imap, h]
  · cases h1 : env.sslSession e p t with
    | ok u => simp [test_smtp, h1]
    | error m =>
      cases h2 : env.startTlsSession e p t <;> simp [test_smtp, h1, h2]
  · cases h1 : env.sslSession e p t with
    | ok u => simp [test_smtp, h1]
    | error m =>
      cases h2 : env.startTlsSession e p t with
      | ok u => simp [test_smtp, h1, h2]
      | error m2 =>
        intro _
        have hs : (test_smtp env e p t).2 = "SSL:" ++ m ++ "; STARTTLS:" ++ m2 := by
          simp [test_smtp, h1, h2]
        refine ⟨?_, m, m2, rfl, rfl, hs⟩
        rw [hs]
        exact combined_detail_ne_empty m m2

/-- C8 (amended) witness: with both SMTP causes known, the failing Probe B
detail is non-empty and combines both causes; the failing Probe A detail is
exactly the stringified cause. -/
theorem C8_probe_detail_invariant_witness :
    bothFailEnv.imapSession "a@x.com" "pw" 20
      = .error (test_imap bothFailEnv "a@x.com" "pw" 20).2
    ∧ (test_smtp bothFailEnv "a@x.com" "pw" 20).2 ≠ "" :=
  ⟨(C8_probe_detail_invariant bothFailEnv "a@x.com" "pw" 20).2.1 rfl,
   ((C8_probe_detail_invariant bothFailEnv "a@x.com" "pw" 20).2.2.2 rfl).1⟩

/-- C3: a failure inside one credential's probes is converted into ok = false
with a diagnostic detail in that credential's result, the batch is never
aborted (the result list always has one entry per credential), and every
other credential is still processed with its own outcome. -/
theorem C3_batch_isolation (env : NetEnv) (pairs : List (String × String))
    (t : Nat) (pause : ℚ) :
    (run_sequential env pairs t pause).length = pairs.length
    ∧ (∀ (j : Nat), (run_sequential env pairs t pause)[j]?
        = (pairs[j]?).map fun ep : String × String => test_one env ep.1 ep.2 t pause)
    ∧ (∀ (k : Nat) (e p m : String),
        pairs[k]? = some (e, p) → env.imapSession e p t = .error m →
        ∃ r : ResultRow, (run_sequential env pairs t pause)[k]? = some r
          ∧ r.imap_ok = false ∧ r.imap_error = m)
    ∧ (∀ (k : Nat) (e p m1 m2 : String), pairs[k]? = some (e, p) →
        env.sslSession e p t = .error m1 →
        env.startTlsSession e p t = .error m2 →
        ∃ r : ResultRow, (run_sequential env pairs t pause)[k]? = some r
          ∧ r.smtp_ok = false
          ∧ r.smtp_error = "SSL:" ++ m1 ++ "; STARTTLS:" ++ m2) := by
  refine ⟨by simp [run_sequential], ?_, ?_, ?_⟩
  · intro j
    simp [run_sequential]
  · intro k e p m hk him
    refine ⟨test_one env e p t pause, ?_, ?_, ?_⟩
    · simp [run_sequential, hk]
    · simp [test_one, test_imap, him]
    · simp [test_one, test_imap, him]
  · intro k e p m1 m2 hk h1 h2
    refine ⟨test_one env e p t pause, ?_, ?_, ?_⟩
    · simp [run_sequential, hk]
    · simp [test_one, test_smtp, h1, h2]
    · simp [test_one, test_smtp, h1, h2]

/-- C3 witness: with every network attempt failing, a two-credential batch
still yields two results, the first carrying the diagnostic details. -/
theorem C3_batch_isolation_witness :
    (run_sequential bothFailEnv [("a@x.com", "pw"), ("b@x.com", "pw2")] 20
      (1 / 2)).length = 2
    ∧ (∃ r, (run_sequential bothFailEnv [("a@x.com", "pw"), ("b@x.com", "pw2")]
          20 (1 / 2))[0]? = some r
        ∧ r.imap_ok = false ∧ r.imap_error = "IMAP login rejected") :=
  ⟨(C3_batch_isolation bothFailEnv [("a@x.com", "pw"), ("b@x.com", "pw2")] 20
      (1 / 2)).1,
   (C3_batch_isolation bothFailEnv [("a@x.com", "pw"), ("b@x.com", "pw2")] 20
      (1 / 2)).2.2.1 0 "a@x.com" "pw" "IMAP login rejected" rfl rfl⟩

/-- The concurrent scheduler yields exactly one result per dispatched index
when every index is in range. -/
theorem filterMapIndexLength (env : NetEnv) (pairs : List (String × String))
    (t : Nat) (pause : ℚ) :
    ∀ (order : List Nat), (∀ k ∈ order, k < pairs.length) →
      (run_concurrent env pairs order t pause).length = order.length := by
  intro order
  induction order with
  | nil => intro _; rfl
  | cons a os ih =>
    intro h
    have ha : a < pairs.length := h a (List.mem_cons_self a os)
    have hrest : ∀ k ∈ os, k < pairs.length :=
      fun k hk => h k (List.mem_cons_of_mem a hk)
    simp only [run_concurrent, List.filterMap_cons,
      List.getElem?_eq_getElem ha, Option.map_some']
    simp only [run_concurrent] at ih
    simp [ih hrest]

/-- C5: the report holds the header, then the tested results in emitted
order, then the skip rows in input order, and nothing else; its data row
count equals the input data row count, in sequential mode and in concurrent
mode (where the completion order is any permutation of the dispatched
indices). -/
theorem C5_output_row_conservation (rows : List RawRow) (env : NetEnv)
    (t : Nat) (pause : ℚ) (order : List Nat)
    (hperm : List.Perm order (List.range (read_accounts rows).1.length)) :
    write_report (run_sequential env (read_accounts rows).1 t pause)
        (read_accounts rows).2
      = reportHeader ::
          ((run_sequential env (read_accounts rows).1 t pause).map resultToRow
            ++ (read_accounts rows).2.map skipToRow)
    ∧ (write_report (run_sequential env (read_accounts rows).1 t pause)
        (read_accounts rows).2).length = rows.length + 1
    ∧ (write_report (run_concurrent env (read_accounts rows).1 order t pause)
        (read_accounts rows).2).length = rows.length + 1 := by
  have hcount : (read_accounts rows).1.length + (read_accounts rows).2.length
      = rows.length := read_accountsAux_count rows 2
  refine ⟨rfl, ?_, ?_⟩
  · simp only [write_report, List.length_cons, List.length_append,
      List.length_map, run_sequential]
    omega
  · have hmem : ∀ k ∈ order, k < (read_accounts rows).1.length := by
      intro k hk
      have hkr := hperm.subset hk
      simpa using hkr
    have hlen := filterMapIndexLength env (read_accounts rows).1 t pause order hmem
    have hord : order.length = (read_accounts rows).1.length := by
      simpa using hperm.length_eq
    simp only [write_report, List.length_cons, List.length_append,
      List.length_map]
    omega

/-- C5 witness: the specification's three-row scenario yields a four-row
report (header plus three data rows) in both scheduler modes. -/
theorem C5_output_row_conservation_witness :
    List.Perm [0] (List.range (read_accounts demoRows).1.length)
    ∧ (write_report (run_sequential allOkEnv (read_accounts demoRows).1 20
        (1 / 2)) (read_accounts demoRows).2).length = 4
    ∧ (write_report (run_concurrent allOkEnv (read_accounts demoRows).1 [0] 20
        (1 / 2)) (read_accounts demoRows).2).length = 4 :=
  ⟨by decide,
   (C5_output_row_conservation demoRows allOkEnv 20 (1 / 2) [0] (by decide)).2.1,
   (C5_output_row_conservation demoRows allOkEnv 20 (1 / 2) [0] (by decide)).2.2⟩

/-- C7: the report header is the fixed column list; every data row is a
tested row or a skip row; the imap_ok and smtp_ok cells are always one of
the literals OK, FAIL, SKIP; a tested row's cell is OK exactly when the
probe reported ok = true; a skip row carries SKIP in both status cells, the
skip reason in both error cells, and an empty elapsed_s cell. -/
theorem C7_report_schema (results : List ResultRow) (skipped : List SkipRec) :
    (write_report results skipped).head? = some reportHeader
    ∧ reportHeader
        = ["email", "imap_ok", "imap_error", "smtp_ok", "smtp_error", "elapsed_s"]
    ∧ (∀ row ∈ (write_report results skipped).tail,
        ((∃ r ∈ results, row = resultToRow r) ∨ ∃ s ∈ skipped, row = skipToRow s)
        ∧ (row[1]? = some "OK" ∨ row[1]? = some "FAIL" ∨ row[1]? = some "SKIP")
        ∧ (row[3]? = some "OK" ∨ row[3]? = some "FAIL" ∨ row[3]? = some "SKIP"))
    ∧ (∀ r : ResultRow,
        ((resultToRow r)[1]? = some "OK" ↔ r.imap_ok = true)
        ∧ ((resultToRow r)[3]? = some "OK" ↔ r.smtp_ok = true))
    ∧ (∀ s : SkipRec,
        skipToRow s = [s.email, "SKIP", s.reason, "SKIP", s.reason, ""]) := by
  refine ⟨rfl, rfl, ?_, ?_, fun s => rfl⟩
  · intro row hrow
    simp only [write_report, List.tail_cons, List.mem_append,
      List.mem_map] at hrow
    rcases hrow with ⟨r, hr, hrw⟩ | ⟨s, hs, hrw⟩
    · subst hrw
      refine ⟨Or.inl ⟨r, hr, rfl⟩, ?_, ?_⟩
      · cases hio : r.imap_ok <;> simp [resultToRow, hio]
      · cases hso : r.smtp_ok <;> simp [resultToRow, hso]
    · subst hrw
      refine ⟨Or.inr ⟨s, hs, rfl⟩, ?_, ?_⟩
      · simp [skipToRow]
      · simp [skipToRow]
  · intro r
    constructor
    · cases hio : r.imap_ok <;> simp [resultToRow, hio]
    · cases hso : r.smtp_ok <;> simp [resultToRow, hso]

/-- C7 witness: a concrete skip row has a legal status cell, and a concrete
tested row's imap_ok cell is OK exactly when its probe succeeded. -/
theorem C7_report_schema_witness :
    ((skipToRow ⟨"(row 3)", "missing email"⟩)[1]? = some "OK"
      ∨ (skipToRow ⟨"(row 3)", "missing email"⟩)[1]? = some "FAIL"
      ∨ (skipToRow ⟨"(row 3)", "missing email"⟩)[1]? = some "SKIP")
    ∧ ((resultToRow (test_one allOkEnv "a@x.com" "pw" 20 (1 / 2)))[1]?
        = some "OK" ↔ (test_one allOkEnv "a@x.com" "pw" 20 (1 / 2)).imap_ok = true) :=
  ⟨((C7_report_schema [test_one allOkEnv "a@x.com" "pw" 20 (1 / 2)]
      [⟨"(row 3)", "missing email"⟩]).2.2.1
      (skipToRow ⟨"(row 3)", "missing email"⟩) (by simp [write_report])).2.1,
   ((C7_report_schema [test_one allOkEnv "a@x.com" "pw" 20 (1 / 2)]
      [⟨"(row 3)", "missing email"⟩]).2.2.2.1
      (test_one allOkEnv "a@x.com" "pw" 20 (1 / 2))).1⟩

end GmailTester
